import Mathlib

/-!
# Verification of the BMP180 driver core (bmp180-nostd)

Shallow embedding of `src/lib.rs` and `src/pressure.rs` of the
`bmp180-nostd` crate, together with theorems settling the specification
claims about the compensation pipeline, the acquisition sequencer, the
calibration load, and the `Pressure` unit wrapper.

Modelling conventions:
* Rust `i32` values are `Int` together with two's-complement wrapping
  (`wrap32`) applied after every arithmetic operation that could leave the
  `i32` range; `u32` values are `Int` in `[0, 2^32)` (`toU32`).
* Rust `>>` on `i32` is an arithmetic shift, i.e. floor division by a power
  of two (`asr`); Rust `/` on `i32` truncates toward zero (`Int.tdiv`);
  `>>` on `u32` is floor division of a non-negative value (`Int.ediv`).
* A Rust panic (division by zero, `unwrap` of `None`) is modelled as
  `Option.none` at the outermost layer of the function's result.
* `f32` values produced by the driver are modelled exactly as rationals
  (every value the claims exercise is a small integer or a small integer
  divided by 10, 100 or 1000, all exactly representable in `f32`); a NaN
  input to the `Pressure` constructors is modelled by the dedicated
  constructor `F32.nan`.
* The I2C transport is modelled as a deterministic device `Bus`: a function
  from the history of bus operations and the current operation to either a
  response (`some bytes`) or a transport error (`none`).  The driver state
  carries the log of issued operations, standing in for the side effects on
  the owned `i2c` object.
-/

namespace BMP180

/-- Two's-complement wrap of an integer into the `i32` range
`[-2^31, 2^31)`, applied wherever a Rust `i32` operation can overflow
(release-mode wrapping semantics). -/
def wrap32 (x : Int) : Int := (x + 2147483648) % 4294967296 - 2147483648

/-- Cast of an `i32` value (or any integer) to `u32`: reduction into
`[0, 2^32)`. -/
def toU32 (x : Int) : Int := x % 4294967296

/-- Arithmetic shift right on `i32` (Rust `>>` on a signed value):
floor division by `2^n`. -/
def asr (x : Int) (n : Nat) : Int := Int.fdiv x (2 ^ n)

/-- A byte: any natural number reduced mod 256 (`u8`). -/
def u8 (n : Nat) : Nat := n % 256

/-- Reinterpret a value in `[0, 2^16)` as a signed 16-bit integer. -/
def toI16 (n : Nat) : Int :=
  if n % 65536 < 32768 then (n % 65536 : Int) else (n % 65536 : Int) - 65536

/-- `byteorder::BigEndian::read_i16` on two bytes. -/
def read_i16_be (hi lo : Nat) : Int := toI16 (u8 hi * 256 + u8 lo)

/-- `byteorder::BigEndian::read_u16` on two bytes. -/
def read_u16_be (hi lo : Nat) : Int := (u8 hi * 256 + u8 lo : Nat)

/-- BMP180 Default device address (`BMP180_I2C_ADDR = 0x77`). -/
def BMP180_I2C_ADDR : Nat := 0x77

/-- Measurement control register address (`0xF4`). -/
def BMP180_REGISTER_CTL : Nat := 0xF4

/-- Temperature command (`0x2E`). -/
def BMP180_CMD_TEMP : Nat := 0x2E

/-- Temperature register MSB address (`0xF6`). -/
def BMP180_REGISTER_TEMP_MSB : Nat := 0xF6

/-- Pressure command base (`0x34`). -/
def BMP180_CMD_PRESSURE : Nat := 0x34

/-- Pressure register MSB address (`0xF6`). -/
def BMP180_REGISTER_PRESSURE_MSB : Nat := 0xF6

/-- Calibration register address AC1 MSB (`0xAA`). -/
def BMP180_REGISTER_AC1MSB : Nat := 0xAA

/-- BMP180 Hardware pressure sampling accuracy modes (`BMP180PressureMode`). -/
inductive BMP180PressureMode where
  | BMP180UltraLowPower
  | BMP180Standard
  | BMP180HighResolution
  | BMP180UltraHighResolution
deriving DecidableEq

/-- `BMP180PressureMode::get_mode_value`: the oversampling shift 0..3. -/
def BMP180PressureMode.get_mode_value : BMP180PressureMode → Nat
  | .BMP180UltraLowPower => 0
  | .BMP180Standard => 1
  | .BMP180HighResolution => 2
  | .BMP180UltraHighResolution => 3

/-- `BMP180PressureMode::mode_delay`: the conversion delay in ms. -/
def BMP180PressureMode.mode_delay : BMP180PressureMode → Nat
  | .BMP180UltraLowPower => 5
  | .BMP180Standard => 8
  | .BMP180HighResolution => 14
  | .BMP180UltraHighResolution => 26

/-- Calibration coefficients (`BMP180CalibrationCoefficients`): eleven
16-bit fields, `ac1..ac3, b1, b2, mb, mc, md` signed, `ac4..ac6` unsigned,
each held as a mathematical integer. -/
structure BMP180CalibrationCoefficients where
  ac1 : Int
  ac2 : Int
  ac3 : Int
  ac4 : Int
  ac5 : Int
  ac6 : Int
  b1 : Int
  b2 : Int
  mb : Int
  mc : Int
  md : Int
deriving DecidableEq

/-- A signed 16-bit value. -/
def isI16 (x : Int) : Prop := -32768 ≤ x ∧ x < 32768

/-- An unsigned 16-bit value. -/
def isU16 (x : Int) : Prop := 0 ≤ x ∧ x < 65536

instance (x : Int) : Decidable (isI16 x) := by unfold isI16; infer_instance

instance (x : Int) : Decidable (isU16 x) := by unfold isU16; infer_instance

/-- All eleven coefficients lie in their declared 16-bit ranges. -/
def BMP180CalibrationCoefficients.InRange
    (c : BMP180CalibrationCoefficients) : Prop :=
  isI16 c.ac1 ∧ isI16 c.ac2 ∧ isI16 c.ac3 ∧ isU16 c.ac4 ∧ isU16 c.ac5 ∧
    isU16 c.ac6 ∧ isI16 c.b1 ∧ isI16 c.b2 ∧ isI16 c.mb ∧ isI16 c.mc ∧
    isI16 c.md

instance (c : BMP180CalibrationCoefficients) : Decidable c.InRange := by
  unfold BMP180CalibrationCoefficients.InRange; infer_instance

/-- Raw BMP180 pressure and temperature reading (`BMP180RawReading`). -/
structure BMP180RawReading where
  padc : Int
  tadc : Int
deriving DecidableEq

/-- One operation issued on the I2C bus by the driver. -/
inductive BusOp where
  | write (addr : Nat) (data : List Nat)
  | writeRead (addr : Nat) (data : List Nat) (len : Nat)
  | read (addr : Nat) (len : Nat)
  | sleep (ms : Nat)
deriving DecidableEq

/-- A deterministic bus device: given the operations issued so far and the
current operation, answer with the response bytes (`some`, the empty list
for writes and sleeps) or fail with a transport error (`none`).
Sleeps never fail. -/
def Bus : Type := List BusOp → BusOp → Option (List Nat)

/-- The driver handle (`BMP180BarometerThermometer`): calibration
coefficients, chosen pressure mode and the cached last raw reading.
`bus_log` records the bus operations issued through the owned `i2c`
object. -/
structure BMP180BarometerThermometer where
  bus_log : List BusOp
  coeff : BMP180CalibrationCoefficients
  pressure_precision : BMP180PressureMode
  last_reading : Option BMP180RawReading
deriving DecidableEq

/-- The `x1` term of `BMP180CalibrationCoefficients::calculate_b5`:
`(((raw_temp as i32) - (ac6 as i32)) * (ac5 as i32)) >> 15`. -/
def b5_x1 (c : BMP180CalibrationCoefficients) (raw_temp : Int) : Int :=
  asr (wrap32 (wrap32 (raw_temp - c.ac6) * c.ac5)) 15

/-- `BMP180CalibrationCoefficients::calculate_b5`.  `none` models the Rust
panic on division by zero in `x2 = ((mc as i32) << 11) / (x1 + md)`. -/
def calculate_b5 (c : BMP180CalibrationCoefficients) (raw_temp : Int) :
    Option Int :=
  let x1 := b5_x1 c raw_temp
  let d := wrap32 (x1 + c.md)
  if d = 0 then none
  else some (wrap32 (x1 + Int.tdiv (wrap32 (c.mc * 2048)) d))

/-- The `b4` divisor computed inside `calculate_real_pressure`:
`b4 = (ac4 as u32 * ((x3 + 32768) as u32)) >> 15` with
`x3 = (((ac3 * b6) >> 13) + ((b1 * _t) >> 16) + 2) >> 2`.  (It does not
depend on the oversampling mode.) -/
def pressure_b4 (b5 : Int) (c : BMP180CalibrationCoefficients) : Int :=
  let b6 := wrap32 (b5 - 4000)
  let t := asr (wrap32 (b6 * b6)) 12
  let x1a := asr (wrap32 (c.ac3 * b6)) 13
  let x2a := asr (wrap32 (c.b1 * t)) 16
  let x3a := asr (wrap32 (wrap32 (x1a + x2a) + 2)) 2
  let ux3 := toU32 (wrap32 (x3a + 32768))
  Int.ediv (toU32 (c.ac4 * ux3)) 32768

/-- `calculate_real_pressure` from `src/lib.rs`: the fixed-point pressure
compensation.  Returns the `i32` value that the source casts to `f32` and
returns in pascals; `none` models the Rust panic on the `u32` division by
`b4 = 0`.  (`oss` is unused beyond its shift value, exactly as in the
source.) -/
def calculate_real_pressure (padc b5 : Int)
    (c : BMP180CalibrationCoefficients) (oss : BMP180PressureMode) :
    Option Int :=
  let ossv := oss.get_mode_value
  let b6 := wrap32 (b5 - 4000)
  let t := asr (wrap32 (b6 * b6)) 12
  let x1 := asr (wrap32 (c.b2 * t)) 11
  let x2 := asr (wrap32 (c.ac2 * b6)) 11
  let x3 := toU32 (wrap32 (x1 + x2))
  let b3 := Int.tdiv
    (wrap32 (wrap32 (wrap32 (wrap32 (c.ac1 * 4) + wrap32 x3) * 2 ^ ossv) + 2)) 4
  let b4 := pressure_b4 b5 c
  let b7 := toU32 (toU32 (wrap32 (padc - b3)) * Int.ediv 50000 (2 ^ ossv))
  if b4 = 0 then none
  else
    let p0 := if b7 < 2147483648 then Int.ediv (toU32 (b7 * 2)) b4
              else toU32 (Int.ediv b7 b4 * 2)
    let p := wrap32 p0
    let y1 := asr (wrap32 (wrap32 (asr p 8 * asr p 8) * 3038)) 16
    let y2 := asr (wrap32 ((-7357) * p)) 16
    some (wrap32 (p + asr (wrap32 (wrap32 (y1 + y2) + 3791)) 4))

/-- `BMP180BarometerThermometer::raw_reading`: trigger temperature, wait
5 ms, read two bytes big-endian as `tadc`; trigger pressure with the
mode-encoded command, wait the mode delay, read three bytes big-endian and
shift right by `8 - mode_shift` as `padc`.  Returns the reading (or the
first transport error) together with the extended bus log. -/
def raw_reading (dev : Bus) (log : List BusOp) (mode : BMP180PressureMode) :
    Except Unit BMP180RawReading × List BusOp :=
  let op1 := BusOp.write BMP180_I2C_ADDR [BMP180_REGISTER_CTL, BMP180_CMD_TEMP]
  let log1 := log ++ [op1]
  match dev log op1 with
  | none => (Except.error (), log1)
  | some _ =>
    let log2 := log1 ++ [BusOp.sleep 5]
    let op3 := BusOp.writeRead BMP180_I2C_ADDR [BMP180_REGISTER_TEMP_MSB] 2
    let log3 := log2 ++ [op3]
    match dev log2 op3 with
    | none => (Except.error (), log3)
    | some buf =>
      let tadc := read_i16_be (buf.getD 0 0) (buf.getD 1 0)
      let off := mode.get_mode_value
      let op4 := BusOp.write BMP180_I2C_ADDR
        [BMP180_REGISTER_CTL, (BMP180_CMD_PRESSURE + off * 64) % 256]
      let log4 := log3 ++ [op4]
      match dev log3 op4 with
      | none => (Except.error (), log4)
      | some _ =>
        let log5 := log4 ++ [BusOp.sleep mode.mode_delay]
        let op6 := BusOp.writeRead BMP180_I2C_ADDR
          [BMP180_REGISTER_PRESSURE_MSB] 3
        let log6 := log5 ++ [op6]
        match dev log5 op6 with
        | none => (Except.error (), log6)
        | some pbuf =>
          let padc : Int :=
            ((u8 (pbuf.getD 0 0) * 65536 + u8 (pbuf.getD 1 0) * 256 +
              u8 (pbuf.getD 2 0)) / 2 ^ (8 - off) : Nat)
          (Except.ok { padc := padc, tadc := tadc }, log6)

/-- `BMP180CalibrationCoefficients::new`: issue the calibration-block
address write and the 22-byte read, *discarding both results* (`let _ =`
in the source); on a failed read the zero-initialised buffer is parsed, so
every coefficient defaults to 0. -/
def BMP180CalibrationCoefficients.new (dev : Bus) (log : List BusOp) :
    BMP180CalibrationCoefficients × List BusOp :=
  let op1 := BusOp.write BMP180_I2C_ADDR [BMP180_REGISTER_AC1MSB]
  let log1 := log ++ [op1]
  let op2 := BusOp.read BMP180_I2C_ADDR 22
  let log2 := log1 ++ [op2]
  let buf := match dev log1 op2 with
    | some b => b
    | none => List.replicate 22 0
  ({ ac1 := read_i16_be (buf.getD 0 0) (buf.getD 1 0),
     ac2 := read_i16_be (buf.getD 2 0) (buf.getD 3 0),
     ac3 := read_i16_be (buf.getD 4 0) (buf.getD 5 0),
     ac4 := read_u16_be (buf.getD 6 0) (buf.getD 7 0),
     ac5 := read_u16_be (buf.getD 8 0) (buf.getD 9 0),
     ac6 := read_u16_be (buf.getD 10 0) (buf.getD 11 0),
     b1 := read_i16_be (buf.getD 12 0) (buf.getD 13 0),
     b2 := read_i16_be (buf.getD 14 0) (buf.getD 15 0),
     mb := read_i16_be (buf.getD 16 0) (buf.getD 17 0),
     mc := read_i16_be (buf.getD 18 0) (buf.getD 19 0),
     md := read_i16_be (buf.getD 20 0) (buf.getD 21 0) }, log2)

/-- `BMP180BarometerThermometer::new`: loads the calibration block and
always produces a handle with no cached reading.  The constructor is
infallible in the source (it returns the struct, not a `Result`). -/
def BMP180BarometerThermometer.new (dev : Bus)
    (pressure_precision : BMP180PressureMode) : BMP180BarometerThermometer :=
  let cl := BMP180CalibrationCoefficients.new dev []
  { bus_log := cl.2
    coeff := cl.1
    pressure_precision := pressure_precision
    last_reading := none }

/-- `BMP180BarometerThermometer::update`: run `raw_reading` at the handle's
pressure mode; on success cache the fresh reading wholesale, on error
return the error leaving `last_reading` untouched. -/
def update (dev : Bus) (s : BMP180BarometerThermometer) :
    Except Unit Unit × BMP180BarometerThermometer :=
  match raw_reading dev s.bus_log s.pressure_precision with
  | (Except.ok r, log) =>
      (Except.ok (), { s with last_reading := some r, bus_log := log })
  | (Except.error e, log) =>
      (Except.error e, { s with bus_log := log })

/-- `BMP180BarometerThermometer::pressure_pa` (`&self`, pure): `None` when
no reading is cached, otherwise the compensated pressure in pascals.  The
outer `Option` models a panic inside the compensation arithmetic; the
inner `Option` is the source's `Option<f32>`. -/
def pressure_pa (s : BMP180BarometerThermometer) : Option (Option ℚ) :=
  match s.last_reading with
  | none => some none
  | some reading =>
    match calculate_b5 s.coeff reading.tadc with
    | none => none
    | some b5 =>
      match calculate_real_pressure reading.padc b5 s.coeff
          s.pressure_precision with
      | none => none
      | some p => some (some (p : ℚ))

/-- `BMP180BarometerThermometer::pressure_hpa` (`&mut self` in the source,
mutating nothing): `pressure_pa` divided by 100. -/
def pressure_hpa (s : BMP180BarometerThermometer) :
    Option (Option ℚ) × BMP180BarometerThermometer :=
  (match pressure_pa s with
   | none => none
   | some none => some none
   | some (some p) => some (some (p / 100)), s)

/-- `BMP180BarometerThermometer::pressure_kpa` (`&mut self` in the source,
mutating nothing): `pressure_pa` divided by 1000. -/
def pressure_kpa (s : BMP180BarometerThermometer) :
    Option (Option ℚ) × BMP180BarometerThermometer :=
  (match pressure_pa s with
   | none => none
   | some none => some none
   | some (some p) => some (some (p / 1000)), s)

/-- `BMP180BarometerThermometer::temperature_celsius` (`&mut self` in the
source, mutating nothing): `None` without a cached reading, otherwise
`((b5 + 8) >> 4) / 10.0`. -/
def temperature_celsius (s : BMP180BarometerThermometer) :
    Option (Option ℚ) × BMP180BarometerThermometer :=
  (match s.last_reading with
   | none => some none
   | some reading =>
     match calculate_b5 s.coeff reading.tadc with
     | none => none
     | some b5 => some (some ((asr (wrap32 (b5 + 8)) 4 : Int) / 10)), s)

/-- An `f32` as consumed by the `Pressure` constructors: either NaN or an
exactly represented rational value. -/
inductive F32 where
  | nan
  | num (q : ℚ)
deriving DecidableEq

/-- `Pressure` from `src/pressure.rs`: a pascal value wrapped in
`NotNan<f32>`; the NaN-freedom invariant is carried by the type (`ℚ`). -/
structure Pressure where
  pascal : ℚ
deriving DecidableEq

/-- `Pressure::hpa`. -/
def Pressure.hpa (p : Pressure) : ℚ := p.pascal / 100

/-- `Pressure::kpa`. -/
def Pressure.kpa (p : Pressure) : ℚ := p.pascal / 1000

/-- `Pressure::from_pascal`: `NotNan::new(pascal).unwrap()` — the unwrap
panics (`none`) on NaN, otherwise stores the value unchanged. -/
def Pressure.from_pascal (v : F32) : Option Pressure :=
  match v with
  | F32.nan => none
  | F32.num q => some { pascal := q }

/-- `Pressure::from_hpa`: stores `hpa * 100.0`; NaN propagates through the
product and the `NotNan::new(..).unwrap()` panics (`none`). -/
def Pressure.from_hpa (v : F32) : Option Pressure :=
  match v with
  | F32.nan => none
  | F32.num q => some { pascal := q * 100 }

/-! ## Specification-side definitions and concrete inputs -/

/-- The claim's formula for the temperature intermediate `x1`, in the
datasheet's 32-bit arithmetic:
`x1 = ((raw_temperature - ac6) * ac5) >> 15`. -/
def spec_x1 (c : BMP180CalibrationCoefficients) (raw_temperature : Int) :
    Int :=
  asr (wrap32 ((raw_temperature - c.ac6) * c.ac5)) 15

/-- The claim's formula for `b5`:
`b5 = x1 + ((mc << 11) / (x1 + md))` with truncating division. -/
def spec_b5 (c : BMP180CalibrationCoefficients) (raw_temperature : Int) :
    Int :=
  spec_x1 c raw_temperature +
    Int.tdiv (c.mc * 2048) (spec_x1 c raw_temperature + c.md)

/-- The claim's acquisition sequence: temperature trigger, 5 ms wait,
2-byte read, pressure trigger with the command
`base + (mode_shift << 6)`, mode-specific wait, 3-byte read. -/
def acquisitionScript (mode : BMP180PressureMode) : List BusOp :=
  [BusOp.write BMP180_I2C_ADDR [BMP180_REGISTER_CTL, BMP180_CMD_TEMP],
   BusOp.sleep 5,
   BusOp.writeRead BMP180_I2C_ADDR [BMP180_REGISTER_TEMP_MSB] 2,
   BusOp.write BMP180_I2C_ADDR
     [BMP180_REGISTER_CTL, BMP180_CMD_PRESSURE + mode.get_mode_value * 64],
   BusOp.sleep mode.mode_delay,
   BusOp.writeRead BMP180_I2C_ADDR [BMP180_REGISTER_PRESSURE_MSB] 3]

/-- The datasheet's published example calibration coefficients. -/
def exampleCoefficients : BMP180CalibrationCoefficients :=
  { ac1 := 408, ac2 := -72, ac3 := -14383, ac4 := 32741, ac5 := 32757,
    ac6 := 23153, b1 := 6190, b2 := 4, mb := -32768, mc := -8711, md := 2868 }

/-- A handle holding the datasheet example coefficients, UltraLowPower
mode and the datasheet example raw reading `tadc = 27898, padc = 23843`. -/
def exampleState : BMP180BarometerThermometer :=
  { bus_log := []
    coeff := exampleCoefficients
    pressure_precision := BMP180PressureMode.BMP180UltraLowPower
    last_reading := some { padc := 23843, tadc := 27898 } }

/-- The all-zero coefficient set: what the constructor produces from the
zero-initialised buffer when the calibration read fails. -/
def zeroCoefficients : BMP180CalibrationCoefficients :=
  { ac1 := 0, ac2 := 0, ac3 := 0, ac4 := 0, ac5 := 0, ac6 := 0,
    b1 := 0, b2 := 0, mb := 0, mc := 0, md := 0 }

/-- A transport on which every write and read fails. -/
def failDev : Bus := fun _ _ => none

/-- A transport that acknowledges every operation and answers every read
with zero bytes. -/
def okDev : Bus := fun _ op =>
  match op with
  | BusOp.writeRead _ _ n => some (List.replicate n 0)
  | BusOp.read _ n => some (List.replicate n 0)
  | _ => some []

/-! ## Helper lemmas -/

theorem wrap32_eq_self (x : Int) (h1 : -2147483648 ≤ x)
    (h2 : x < 2147483648) : wrap32 x = x := by
  unfold wrap32
  omega

theorem wrap32_bounds (x : Int) :
    -2147483648 ≤ wrap32 x ∧ wrap32 x < 2147483648 := by
  unfold wrap32
  omega

theorem asr_eq_ediv (x : Int) (n : Nat) : asr x n = x / (2 ^ n : Int) := by
  unfold asr
  exact Int.fdiv_eq_ediv x (by positivity)

theorem tdiv_natAbs_le (a b : Int) : (Int.tdiv a b).natAbs ≤ a.natAbs := by
  rw [Int.natAbs_tdiv]
  exact Nat.div_le_self _ _

/-! ## Claim theorems -/

/-- C1 counterexample: on the datasheet example coefficients and raw
temperature 27898, the code's `calculate_b5` does not yield 2399: the
truncating division of the negative `x2` term gives `b5 = 2400` (the
datasheet's worked example floors). -/
theorem c1_counterexample_b5_not_2399 :
    calculate_b5 exampleCoefficients 27898 ≠ some 2399 := by decide

/-- C1 (amended): for the datasheet example coefficients and raw reading
`tadc = 27898`, `padc = 23843` under UltraLowPower mode, the pipeline
yields the intermediate `b5 = 2400`, a temperature within 0.01 of
15.0 degrees Celsius (it is exactly 15.0), and a pressure within 0.01 of
69964 pascals (it is exactly 69964). -/
theorem c1_datasheet_example :
    calculate_b5 exampleCoefficients 27898 = some 2400 ∧
    (∃ q, (temperature_celsius exampleState).1 = some (some q) ∧
      |q - 15| ≤ 1 / 100) ∧
    (∃ q, pressure_pa exampleState = some (some q) ∧
      |q - 69964| ≤ 1 / 100) := by
  have hb5 : calculate_b5 exampleCoefficients 27898 = some 2400 := by decide
  have h150 : asr (wrap32 (2400 + 8)) 4 = 150 := by decide
  have hp : calculate_real_pressure 23843 2400 exampleCoefficients
      BMP180PressureMode.BMP180UltraLowPower = some 69964 := by decide
  refine ⟨hb5, ⟨15, ?_, by norm_num⟩, ⟨69964, ?_, by norm_num⟩⟩
  · simp only [temperature_celsius, exampleState]
    simp only [hb5, h150]
    norm_num
  · simp only [pressure_pa, exampleState]
    simp only [hb5, hp]
    norm_num

/-- C3 counterexample: at the all-zero coefficient set and raw
temperature 0, the `b5` divisor `x1 + md` is zero and the computation
panics (modelled `none`): no domain-error value is surfaced to the caller,
contrary to the claim. -/
theorem c3_counterexample_zero_divisor_no_error :
    wrap32 (b5_x1 zeroCoefficients 0 + zeroCoefficients.md) = 0 ∧
    calculate_b5 zeroCoefficients 0 = none ∧
    (temperature_celsius
      { bus_log := [], coeff := zeroCoefficients,
        pressure_precision := BMP180PressureMode.BMP180UltraLowPower,
        last_reading := some { padc := 0, tadc := 0 } }).1 = none := by
  refine ⟨by decide, by decide, by decide⟩

/-- C3 (amended): whenever a zero divisor arises, the affected operation
panics (diverges, yielding no value at all, modelled `none`) — on every
input with `x1 + md = 0` the `b5` computation panics, and independently,
on every input with `b4 = 0` the pressure computation panics; in neither
case is a distinct error value or a silent zero or infinity returned. -/
theorem c3_zero_divisor_panics :
    (∀ (c : BMP180CalibrationCoefficients) (t : Int),
      wrap32 (b5_x1 c t + c.md) = 0 → calculate_b5 c t = none) ∧
    (∀ (padc b5 : Int) (c : BMP180CalibrationCoefficients)
      (oss : BMP180PressureMode),
      pressure_b4 b5 c = 0 → calculate_real_pressure padc b5 c oss = none) := by
  constructor
  · intro c t hb5
    simp [calculate_b5, hb5]
  · intro padc b5 c oss hb4
    simp [calculate_real_pressure, hb4]

/-- C3 witness: each half of the amended theorem applied on its own — the
`b5` half at the all-zero coefficient set and raw temperature 0, and the
pressure half at `b5 = 0` with the all-zero coefficient set (`ac4 = 0`
makes `b4 = 0`). -/
theorem c3_zero_divisor_panics_witness :
    calculate_b5 zeroCoefficients 0 = none ∧
    calculate_real_pressure 0 0 zeroCoefficients
      BMP180PressureMode.BMP180UltraLowPower = none :=
  ⟨c3_zero_divisor_panics.1 zeroCoefficients 0 (by decide),
   c3_zero_divisor_panics.2 0 0 zeroCoefficients
     BMP180PressureMode.BMP180UltraLowPower (by decide)⟩

/-- C4 (code bug at the failing input): with a transport that fails every
operation, the 22-byte calibration load fails, yet handle construction
still succeeds — the source discards both transport results with
`let _ =` — and the handle carries the defaulted all-zero coefficients,
contrary to the claim that a transport failure must prevent
construction. -/
theorem c4_failed_calibration_load_defaults :
    BMP180BarometerThermometer.new failDev
        BMP180PressureMode.BMP180UltraLowPower =
      { bus_log := [BusOp.write BMP180_I2C_ADDR [BMP180_REGISTER_AC1MSB],
                    BusOp.read BMP180_I2C_ADDR 22],
        coeff := zeroCoefficients,
        pressure_precision := BMP180PressureMode.BMP180UltraLowPower,
        last_reading := none } := by decide

/-- C5: a freshly constructed handle has no cached reading, and every
calibrated-value accessor on a handle with no cached reading returns the
"no reading available" signal `None` (modelled `some none`: no panic, and
the source's `Option` is `None`), never a zero-valued measurement. -/
theorem c5_no_reading_before_update (dev : Bus)
    (mode : BMP180PressureMode) (s : BMP180BarometerThermometer)
    (hs : s.last_reading = none) :
    (BMP180BarometerThermometer.new dev mode).last_reading = none ∧
    pressure_pa s = some none ∧
    (pressure_hpa s).1 = some none ∧
    (pressure_kpa s).1 = some none ∧
    (temperature_celsius s).1 = some none := by
  refine ⟨rfl, ?_, ?_, ?_, ?_⟩ <;>
    simp [pressure_pa, pressure_hpa, pressure_kpa, temperature_celsius, hs]

/-- C5 witness: the theorem applied to the handle freshly constructed on
the failing transport. -/
theorem c5_no_reading_before_update_witness :
    (BMP180BarometerThermometer.new failDev
      BMP180PressureMode.BMP180UltraLowPower).last_reading = none ∧
    pressure_pa (BMP180BarometerThermometer.new failDev
      BMP180PressureMode.BMP180UltraLowPower) = some none ∧
    (pressure_hpa (BMP180BarometerThermometer.new failDev
      BMP180PressureMode.BMP180UltraLowPower)).1 = some none ∧
    (pressure_kpa (BMP180BarometerThermometer.new failDev
      BMP180PressureMode.BMP180UltraLowPower)).1 = some none ∧
    (temperature_celsius (BMP180BarometerThermometer.new failDev
      BMP180PressureMode.BMP180UltraLowPower)).1 = some none :=
  c5_no_reading_before_update failDev BMP180PressureMode.BMP180UltraLowPower
    (BMP180BarometerThermometer.new failDev
      BMP180PressureMode.BMP180UltraLowPower) rfl

/-- C8: constructing a `Pressure` from NaN fails (the `NotNan` unwrap
panics, modelled `none`) — it never produces a `Pressure` holding NaN nor
normalizes to zero — and every successfully constructed `Pressure` holds
the non-NaN rational pascal value determined by its input. -/
theorem c8_nan_rejected :
    Pressure.from_pascal F32.nan = none ∧
    Pressure.from_hpa F32.nan = none ∧
    (∀ v p, Pressure.from_pascal v = some p →
      ∃ q, v = F32.num q ∧ p.pascal = q) ∧
    (∀ v p, Pressure.from_hpa v = some p →
      ∃ q, v = F32.num q ∧ p.pascal = q * 100) := by
  refine ⟨rfl, rfl, ?_, ?_⟩
  · intro v p h
    cases v with
    | nan => exact absurd h (by simp [Pressure.from_pascal])
    | num q =>
      simp only [Pressure.from_pascal, Option.some.injEq] at h
      exact ⟨q, rfl, by rw [← h]⟩
  · intro v p h
    cases v with
    | nan => exact absurd h (by simp [Pressure.from_hpa])
    | num q =>
      simp only [Pressure.from_hpa, Option.some.injEq] at h
      exact ⟨q, rfl, by rw [← h]⟩

/-- C8 witness: the constructors applied to the concrete non-NaN inputs
5 Pa and 7 hPa. -/
theorem c8_nan_rejected_witness :
    (∃ q, F32.num (5 : ℚ) = F32.num q ∧ (Pressure.mk 5).pascal = q) ∧
    (∃ q, F32.num (7 : ℚ) = F32.num q ∧ (Pressure.mk 700).pascal = q * 100) :=
  ⟨c8_nan_rejected.2.2.1 (F32.num 5) (Pressure.mk 5) rfl,
   c8_nan_rejected.2.2.2 (F32.num 7) (Pressure.mk 700)
     (by norm_num [Pressure.from_hpa])⟩

/-- C9: the unit projections are exact scalings —
`from_pascal(100000).hpa() = 1000` and `.kpa() = 100` — and the
hPa round-trip `from_hpa(x).hpa() = x` holds for every rational `x`
(the arithmetic is modelled exactly; the claim's "within float precision"
tolerance is not needed). -/
theorem c9_unit_projections :
    (Pressure.from_pascal (F32.num 100000)).map Pressure.hpa = some 1000 ∧
    (Pressure.from_pascal (F32.num 100000)).map Pressure.kpa = some 100 ∧
    ∀ q : ℚ, (Pressure.from_hpa (F32.num q)).map Pressure.hpa = some q := by
  refine ⟨by norm_num [Pressure.from_pascal, Pressure.hpa],
    by norm_num [Pressure.from_pascal, Pressure.kpa], ?_⟩
  intro q
  simp only [Pressure.from_hpa, Option.map_some', Pressure.hpa,
    Option.some.injEq]
  exact mul_div_cancel_right₀ q (by norm_num)

/-- C10: the calibrated-value accessors are pure reads — each returns the
handle unchanged (coefficients, mode, last reading and bus log included,
so no bus operation is performed), and repeated calls between two updates
return equal results. -/
theorem c10_accessors_pure (s : BMP180BarometerThermometer) :
    (pressure_hpa s).2 = s ∧
    (pressure_kpa s).2 = s ∧
    (temperature_celsius s).2 = s ∧
    (pressure_hpa s).2.bus_log = s.bus_log ∧
    (pressure_kpa s).2.bus_log = s.bus_log ∧
    (temperature_celsius s).2.bus_log = s.bus_log ∧
    pressure_pa ((pressure_hpa s).2) = pressure_pa s ∧
    (pressure_hpa ((pressure_hpa s).2)).1 = (pressure_hpa s).1 ∧
    (pressure_kpa ((pressure_kpa s).2)).1 = (pressure_kpa s).1 ∧
    (temperature_celsius ((temperature_celsius s).2)).1 =
      (temperature_celsius s).1 :=
  ⟨rfl, rfl, rfl, rfl, rfl, rfl, rfl, rfl, rfl, rfl⟩

/-- C2: for every in-range coefficient set and raw temperature code with
`x1 + md ≠ 0` (where `x1 = ((raw - ac6) * ac5) >> 15` in 32-bit datasheet
arithmetic), `calculate_b5` returns exactly
`x1 + ((mc << 11) / (x1 + md))` (`spec_b5`), and the calibrated
temperature on a handle holding such a reading is `((b5 + 8) >> 4) / 10`
as a rational Celsius value. -/
theorem c2_b5_and_temperature_formula (s : BMP180BarometerThermometer)
    (r : BMP180RawReading) (hr : s.last_reading = some r)
    (hc : s.coeff.InRange) (ht : isI16 r.tadc)
    (hd : spec_x1 s.coeff r.tadc + s.coeff.md ≠ 0) :
    calculate_b5 s.coeff r.tadc = some (spec_b5 s.coeff r.tadc) ∧
    (temperature_celsius s).1 =
      some (some (((asr (spec_b5 s.coeff r.tadc + 8) 4 : Int) : ℚ) / 10)) := by
  simp only [BMP180CalibrationCoefficients.InRange, isI16, isU16] at hc ht
  obtain ⟨hac1, hac2, hac3, hac4, hac5, hac6, hb1, hb2, hmb, hmc, hmd⟩ := hc
  have hsub : wrap32 (r.tadc - s.coeff.ac6) = r.tadc - s.coeff.ac6 := by
    apply wrap32_eq_self <;> omega
  have hx1eq : b5_x1 s.coeff r.tadc = spec_x1 s.coeff r.tadc := by
    unfold b5_x1 spec_x1
    rw [hsub]
  have hw := wrap32_bounds ((r.tadc - s.coeff.ac6) * s.coeff.ac5)
  have hx1ediv : spec_x1 s.coeff r.tadc =
      wrap32 ((r.tadc - s.coeff.ac6) * s.coeff.ac5) / 32768 := by
    unfold spec_x1
    rw [asr_eq_ediv]
    norm_num
  have hx1b : -65536 ≤ spec_x1 s.coeff r.tadc ∧
      spec_x1 s.coeff r.tadc < 65536 := by
    rw [hx1ediv]
    omega
  have hdval : wrap32 (spec_x1 s.coeff r.tadc + s.coeff.md) =
      spec_x1 s.coeff r.tadc + s.coeff.md := by
    apply wrap32_eq_self <;> omega
  have hmc2048 : wrap32 (s.coeff.mc * 2048) = s.coeff.mc * 2048 := by
    apply wrap32_eq_self <;> omega
  have hx2b := tdiv_natAbs_le (s.coeff.mc * 2048)
    (spec_x1 s.coeff r.tadc + s.coeff.md)
  have hmcabs : (s.coeff.mc * 2048).natAbs ≤ 67108864 := by omega
  have hb5eq : calculate_b5 s.coeff r.tadc = some (spec_b5 s.coeff r.tadc) := by
    simp only [calculate_b5]
    rw [hx1eq, hdval, hmc2048, if_neg hd]
    unfold spec_b5
    congr 1
    apply wrap32_eq_self <;> omega
  have hb5b : (spec_b5 s.coeff r.tadc).natAbs ≤ 67174400 := by
    unfold spec_b5
    omega
  refine ⟨hb5eq, ?_⟩
  simp only [temperature_celsius, hr, hb5eq]
  have hwrap : wrap32 (spec_b5 s.coeff r.tadc + 8) =
      spec_b5 s.coeff r.tadc + 8 := by
    apply wrap32_eq_self <;> omega
  rw [hwrap]

/-- C2 witness: the formula theorem applied to the datasheet example
handle. -/
theorem c2_b5_and_temperature_formula_witness :
    calculate_b5 exampleCoefficients 27898 =
      some (spec_b5 exampleCoefficients 27898) ∧
    (temperature_celsius exampleState).1 =
      some (some (((asr (spec_b5 exampleCoefficients 27898 + 8) 4 : Int) :
        ℚ) / 10)) :=
  c2_b5_and_temperature_formula exampleState
    { padc := 23843, tadc := 27898 } rfl (by decide) (by decide) (by decide)

/-- C6: the mode tables are exactly {0,5}, {1,8}, {2,14}, {3,26}, and
every successful acquisition issues exactly the claim's operation
sequence — temperature trigger first, then the pressure trigger with
command `base + (mode_shift << 6)` after the 5 ms temperature wait, then
the mode-specific delay and the 3-byte read — and the raw pressure code is
the 24-bit big-endian read value shifted right by `8 - mode_shift`. -/
theorem c6_acquisition_sequence :
    (BMP180PressureMode.BMP180UltraLowPower.get_mode_value = 0 ∧
     BMP180PressureMode.BMP180UltraLowPower.mode_delay = 5 ∧
     BMP180PressureMode.BMP180Standard.get_mode_value = 1 ∧
     BMP180PressureMode.BMP180Standard.mode_delay = 8 ∧
     BMP180PressureMode.BMP180HighResolution.get_mode_value = 2 ∧
     BMP180PressureMode.BMP180HighResolution.mode_delay = 14 ∧
     BMP180PressureMode.BMP180UltraHighResolution.get_mode_value = 3 ∧
     BMP180PressureMode.BMP180UltraHighResolution.mode_delay = 26) ∧
    ∀ (dev : Bus) (log : List BusOp) (mode : BMP180PressureMode)
      (r : BMP180RawReading) (finalLog : List BusOp),
      raw_reading dev log mode = (Except.ok r, finalLog) →
      finalLog = log ++ acquisitionScript mode ∧
      ∃ bytes,
        dev (log ++ (acquisitionScript mode).take 5)
            (BusOp.writeRead BMP180_I2C_ADDR [BMP180_REGISTER_PRESSURE_MSB] 3)
          = some bytes ∧
        r.padc = ((u8 (bytes.getD 0 0) * 65536 + u8 (bytes.getD 1 0) * 256 +
            u8 (bytes.getD 2 0)) / 2 ^ (8 - mode.get_mode_value) : Nat) := by
  refine ⟨⟨rfl, rfl, rfl, rfl, rfl, rfl, rfl, rfl⟩, ?_⟩
  intro dev log mode r finalLog h
  have hcmd : (BMP180_CMD_PRESSURE + mode.get_mode_value * 64) % 256 =
      BMP180_CMD_PRESSURE + mode.get_mode_value * 64 := by
    have h3 : mode.get_mode_value ≤ 3 := by cases mode <;> decide
    have h52 : BMP180_CMD_PRESSURE = 52 := rfl
    omega
  simp only [raw_reading] at h
  split at h
  · simp at h
  · split at h
    · simp at h
    · split at h
      · simp at h
      · split at h
        · simp at h
        · rename_i opt6 pbuf hop6
          simp only [Prod.mk.injEq, Except.ok.injEq] at h
          obtain ⟨hval, hlog⟩ := h
          constructor
          · rw [← hlog]
            simp [acquisitionScript, hcmd]
          · refine ⟨pbuf, ?_, ?_⟩
            · have harg : log ++ (acquisitionScript mode).take 5 =
                  log ++
                    [BusOp.write BMP180_I2C_ADDR
                      [BMP180_REGISTER_CTL, BMP180_CMD_TEMP]] ++
                    [BusOp.sleep 5] ++
                    [BusOp.writeRead BMP180_I2C_ADDR
                      [BMP180_REGISTER_TEMP_MSB] 2] ++
                    [BusOp.write BMP180_I2C_ADDR
                      [BMP180_REGISTER_CTL,
                        (BMP180_CMD_PRESSURE + mode.get_mode_value * 64) %
                          256]] ++
                    [BusOp.sleep mode.mode_delay] := by
                simp [acquisitionScript, hcmd]
              rw [harg]
              exact hop6
            · rw [← hval]

/-- C6 witness: the sequencing theorem applied to a run on the
all-acknowledging transport in UltraLowPower mode. -/
theorem c6_acquisition_sequence_witness :
    acquisitionScript BMP180PressureMode.BMP180UltraLowPower =
      [] ++ acquisitionScript BMP180PressureMode.BMP180UltraLowPower ∧
    ∃ bytes,
      okDev ([] ++
          (acquisitionScript BMP180PressureMode.BMP180UltraLowPower).take 5)
          (BusOp.writeRead BMP180_I2C_ADDR [BMP180_REGISTER_PRESSURE_MSB] 3)
        = some bytes ∧
      (BMP180RawReading.mk 0 0).padc =
        ((u8 (bytes.getD 0 0) * 65536 + u8 (bytes.getD 1 0) * 256 +
          u8 (bytes.getD 2 0)) / 2 ^
            (8 - BMP180PressureMode.BMP180UltraLowPower.get_mode_value) :
          Nat) :=
  c6_acquisition_sequence.2 okDev [] BMP180PressureMode.BMP180UltraLowPower
    (BMP180RawReading.mk 0 0)
    (acquisitionScript BMP180PressureMode.BMP180UltraLowPower) (by rfl)

/-- C7: whenever `raw_reading` fails with a transport error at any step,
the whole `update` fails — the error is returned to the caller — and the
handle's cached last raw reading (as well as its coefficients and mode) is
left unchanged: no partial result is cached. -/
theorem c7_failed_update_preserves_reading (dev : Bus)
    (s : BMP180BarometerThermometer) (e : Unit)
    (h : (raw_reading dev s.bus_log s.pressure_precision).1 =
      Except.error e) :
    (update dev s).1 = Except.error e ∧
    (update dev s).2.last_reading = s.last_reading ∧
    (update dev s).2.coeff = s.coeff ∧
    (update dev s).2.pressure_precision = s.pressure_precision := by
  rcases hrr : raw_reading dev s.bus_log s.pressure_precision with ⟨res, log⟩
  have hres : res = Except.error e := by
    rw [hrr] at h
    exact h
  subst hres
  unfold update
  rw [hrr]
  exact ⟨rfl, rfl, rfl, rfl⟩

/-- C7 witness: the theorem applied to the failing transport, on which the
very first control-register write errors. -/
theorem c7_failed_update_preserves_reading_witness :
    (update failDev exampleState).1 = Except.error () ∧
    (update failDev exampleState).2.last_reading =
      exampleState.last_reading ∧
    (update failDev exampleState).2.coeff = exampleState.coeff ∧
    (update failDev exampleState).2.pressure_precision =
      exampleState.pressure_precision :=
  c7_failed_update_preserves_reading failDev exampleState () (by rfl)

end BMP180
